import Mathlib

/-!
Verification development for `fetch_sec_bullish_secapi.py` (sec-bullish-monitor).

The script is a batch job that POSTs filter queries to a configured SEC-search
endpoint, paginates through the results, deduplicates them by a composite key,
and writes JSON/CSV exports plus an RSS feed.  We give a shallow embedding of
the script's data model (Python/JSON values as `PyVal`), its HTTP layer
(`_post_once`), its response reader (`_extract_rows`), its pagination loop
(`run_query_to_files`), and its orchestration (`mainRun`), and prove the
spec-level properties about them.  Python exceptions are modelled with
`Except String`; a raised exception is an `Except.error`.
-/

set_option maxRecDepth 100000

mutual
/-- Python/JSON values as they occur in this program: `None`, booleans,
integers, strings, lists and (string-keyed) dicts.  `PyList`/`PyDict` are the
spines of list and dict values (mutual so that decidable equality derives). -/
inductive PyVal where
  | none
  | bool (b : Bool)
  | int (n : Int)
  | str (s : String)
  | list (xs : PyList)
  | dict (kvs : PyDict)
  deriving DecidableEq
inductive PyList where
  | nil
  | cons (hd : PyVal) (tl : PyList)
  deriving DecidableEq
inductive PyDict where
  | nil
  | cons (k : String) (v : PyVal) (tl : PyDict)
  deriving DecidableEq
end

/-- Spine of a Python list as a Lean list. -/
def PyList.toList : PyList → List PyVal
  | .nil => []
  | .cons h t => h :: t.toList

/-- Build a `PyList` from a Lean list. -/
def PyList.ofList : List PyVal → PyList
  | [] => .nil
  | h :: t => .cons h (PyList.ofList t)

/-- Dict lookup (Python dict keys are unique, so first match is the match). -/
def PyDict.find : PyDict → String → Option PyVal
  | .nil, _ => Option.none
  | .cons k v t, key => if k = key then some v else t.find key

/-- Key membership test, Python's `key in d` for a dict. -/
def PyDict.hasKey (d : PyDict) (key : String) : Bool :=
  (d.find key).isSome

/-- Python truthiness (`bool(v)`): `None`, `False`, `0`, `""`, `[]`, and
an empty dict are falsy, everything else is truthy. -/
def PyVal.truthy : PyVal → Bool
  | .none => false
  | .bool b => b
  | .int n => n != 0
  | .str s => !s.isEmpty
  | .list .nil => false
  | .list (.cons _ _) => true
  | .dict .nil => false
  | .dict (.cons _ _ _) => true

/-- Computations that may raise a Python exception. -/
abbrev Py (α : Type) := Except String α

/-- Python's `v.get(key)` attribute call: dict lookup returning `None` when
the key is absent; on any non-dict value it raises `AttributeError`. -/
def pyGet (v : PyVal) (key : String) : Py PyVal :=
  match v with
  | .dict kvs => Except.ok ((kvs.find key).getD PyVal.none)
  | _ => Except.error "AttributeError: object has no attribute get"

/-- Python's `key in v` for a string key: dict key membership, substring test
on strings, element equality on lists; `TypeError` on other values. -/
def pyIn (key : String) (v : PyVal) : Py Bool :=
  match v with
  | .dict kvs => Except.ok (kvs.hasKey key)
  | .str s => Except.ok (decide (key.data <:+: s.data))
  | .list xs => Except.ok (xs.toList.contains (PyVal.str key))
  | _ => Except.error "TypeError: argument is not iterable"

/-- Python's `v[key]` for a string key: dict indexing (`KeyError` when
absent); on strings and all other values it raises `TypeError`. -/
def pyIndex (v : PyVal) (key : String) : Py PyVal :=
  match v with
  | .dict kvs =>
      match kvs.find key with
      | some w => Except.ok w
      | Option.none => Except.error "KeyError"
  | _ => Except.error "TypeError: indices must be integers"

/-- An HTTP exchange as seen by `_post_once` once a response arrived:
the status code, the parsed JSON body when the body parses (`r.json()`),
and the raw body text (`r.text`). -/
structure HttpResponse where
  status : Nat
  jsonBody : Option PyVal
  text : String
  deriving DecidableEq

/-- Transport layer of the script (`_post_once`, lines 95-113).  The script
targets exactly one configured endpoint with exactly one auth scheme; there is
no candidate list.  A 404 raises at once, a 401/403 raises at once,
`raise_for_status` raises on every other 4xx/5xx, and a 2xx body that fails to
parse as JSON is wrapped as the dict value of key `raw`.  Logging and header
construction are effect-only and not modelled. -/
def _post_once (r : HttpResponse) : Py PyVal :=
  if r.status == 404 then
    Except.error "404 Not Found: wrong endpoint path"
  else if r.status == 401 || r.status == 403 then
    Except.error "Auth error (401/403): wrong AUTH_SCHEME or key"
  else if 400 ≤ r.status && r.status < 600 then
    Except.error "HTTPError"
  else
    match r.jsonBody with
    | some j => Except.ok j
    | Option.none => Except.ok (PyVal.dict (.cons "raw" (.str r.text) .nil))

/-- Claim C1, the claim as frozen is false on this code: on HTTP 404 the
transport layer does not advance to any further candidate, it aborts at once
with a `RuntimeError` (and likewise on 401/403).  Concretely, a 404 response
with a perfectly parseable JSON body still yields an error, so no
candidate-advancing behaviour exists to observe. -/
theorem C1_counterexample_404_aborts :
    (_post_once ⟨404, some (PyVal.dict .nil), ""⟩).isOk = false ∧
    (_post_once ⟨401, some (PyVal.dict .nil), ""⟩).isOk = false ∧
    (_post_once ⟨403, some (PyVal.dict .nil), ""⟩).isOk = false := by
  decide

/-- Claim C1 (amended): the transport layer issues each request to exactly one
configured (endpoint, auth-scheme) pair; an HTTP 404 aborts immediately with an
error, as does 401/403 (and any other 4xx/5xx); there is no candidate list, no
advancing, and no `TransportExhausted` aggregation; a 2xx response with a JSON
body is returned as parsed. -/
theorem C1_amended_failfast :
    ∀ (b : Option PyVal) (t : String),
      (_post_once ⟨404, b, t⟩).isOk = false ∧
      (_post_once ⟨401, b, t⟩).isOk = false ∧
      (_post_once ⟨403, b, t⟩).isOk = false ∧
      (_post_once ⟨500, b, t⟩).isOk = false ∧
      (∀ j : PyVal, _post_once ⟨200, some j, t⟩ = Except.ok j) := by
  intro b t
  refine ⟨rfl, rfl, rfl, rfl, fun j => rfl⟩

/-- Clause builder for one full-text phrase, Python's `f'text:"{t}"'`. -/
def textClause (t : String) : String := "text:\"" ++ t ++ "\""

/-- Query builder for the bullish 8-K category (`q_8k_bullish`). -/
def q_8k_bullish (hours : Nat) : String :=
  let pos := ["raises guidance", "guidance raised", "reaffirms guidance",
    "share repurchase", "buyback", "dividend increase",
    "contract award", "wins contract", "strategic partnership",
    "FDA approval", "breakthrough therapy", "uplisting", "reinstates dividend"]
  let neg := ["ATM", "at-the-market", "shelf registration", "warrant"]
  let pos_q := String.intercalate " OR " (pos.map textClause)
  let neg_q := String.intercalate " OR " (neg.map textClause)
  "formType:\"8-K\" AND filedAt:[now-" ++ toString hours ++ "h TO now] AND ( " ++
    pos_q ++ " ) " ++ "AND NOT ( " ++ neg_q ++
    " ) AND ( itemNumbers:\"7.01\" OR itemNumbers:\"2.02\" )"

/-- Query builder for the 8-K material-agreements category. -/
def q_8k_material_agreements (hours : Nat) : String :=
  "formType:\"8-K\" AND filedAt:[now-" ++ toString hours ++ "h TO now] AND " ++
    "( text:\"Item 1.01\" OR text:\"material definitive agreement\" ) " ++
    "AND NOT ( text:\"ATM\" OR text:\"at-the-market\" )"

/-- The trailing, hours-independent part of the Form-4 query (everything after
the interpolated lookback), kept as its own definition so that clause-presence
facts can be proved for every lookback value. -/
def q_form4_tail : String :=
  "h TO now] AND (" ++
    "  transactionCode:\"P\" OR " ++
    "  data.insiderTransactions.transactionCode:\"P\" OR " ++
    "  nonDerivativeTable.transactionCode:\"P\" OR " ++
    "  derivativeTable.transactionCode:\"P\" " ++
    ")"

/-- Query builder for the Form-4 purchase category (`q_form4_buys`,
lines 148-156): it filters on `transactionCode:"P"` across four field
locations and on nothing else. -/
def q_form4_buys (hours : Nat) : String :=
  "formType:\"4\" AND filedAt:[now-" ++ toString hours ++ q_form4_tail

/-- Query builder for the bullish 10-Q category. -/
def q_10q_bullish (hours : Nat) : String :=
  let terms := ["raises guidance", "increase guidance", "improved liquidity",
    "cash flow improved", "gross margin improved", "profitability improved",
    "record revenue", "strong backlog"]
  let t_q := String.intercalate " OR " (terms.map textClause)
  "formType:\"10-Q\" AND filedAt:[now-" ++ toString hours ++ "h TO now] AND ( " ++
    t_q ++ " )"

/-- Query builder for the 13D/13G category. -/
def q_13d_13g (hours : Nat) : String :=
  "(formType:\"SC 13D\" OR formType:\"SC 13G\") AND filedAt:[now-" ++
    toString hours ++ "h TO now]"

/-- Key names probed, in order, by the response reader (`_extract_rows`). -/
def rowKeys : List String := ["filings", "data", "results", "items"]

/-- Key-probing phase of `_extract_rows`: Python's
`for key in (...): if key in resp and isinstance(resp[key], list): return resp[key]`
followed by the `[resp] if isinstance(resp, dict) else []` fallback. -/
def extractRowsGo (resp : PyVal) : List String → Py (List PyVal)
  | [] => Except.ok (match resp with | .dict _ => [resp] | _ => [])
  | k :: ks =>
      match pyIn k resp with
      | .error e => Except.error e
      | .ok mem =>
          if mem then
            match pyIndex resp k with
            | .error e => Except.error e
            | .ok (.list xs) => Except.ok xs.toList
            | .ok _ => extractRowsGo resp ks
          else extractRowsGo resp ks

/-- Response reader (`_extract_rows`, lines 184-196): a falsy response is the
empty page, a top-level list is returned as is, otherwise the keys `filings`,
`data`, `results`, `items` are probed for a list value, and otherwise a dict
falls through to the single-record fallback `[resp]`. -/
def _extract_rows (resp : PyVal) : Py (List PyVal) :=
  if !resp.truthy then Except.ok []
  else
    match resp with
    | .list xs => Except.ok xs.toList
    | _ => extractRowsGo resp rowKeys

/-- The wrapped record `_post_once` builds when a 2xx body is not JSON. -/
def rawWrap (t : String) : PyVal := PyVal.dict (.cons "raw" (.str t) .nil)

/-- One raw Elasticsearch-style hit, used to exercise the reader on the
`hits.hits` shape the spec describes. -/
def esHit : PyVal := PyVal.dict (.cons "_source" (PyVal.dict .nil) .nil)

/-- An Elasticsearch-style response `hits.hits` wrapping `esHit`. -/
def esResp : PyVal :=
  PyVal.dict (.cons "hits"
    (PyVal.dict (.cons "hits" (PyVal.list (.cons esHit .nil)) .nil)) .nil)

/-- Claim C6, the claim as frozen is false on this code: the reader has no
`hits.hits` handling at all.  On an Elasticsearch-style response it falls
through to the single-object fallback and returns the whole response as the
one record, not the records under `hits.hits`. -/
theorem C6_counterexample_hits_shape :
    _extract_rows esResp = Except.ok [esResp] ∧ ([esResp] : List PyVal) ≠ [esHit] := by
  exact ⟨rfl, by decide⟩

/-- Claim C6 (amended): the reader extracts the record list from a top-level
JSON list and from each of the shapes with a list under `filings`, `data`,
`results` or `items`; the Elasticsearch `hits.hits` shape is not unwrapped
(such a response is returned via the single-record dict fallback). -/
theorem C6_amended_shapes :
    (∀ xs : PyList, _extract_rows (PyVal.list xs) = Except.ok xs.toList) ∧
    (∀ xs : PyList,
      _extract_rows (PyVal.dict (.cons "filings" (PyVal.list xs) .nil)) =
        Except.ok xs.toList) ∧
    (∀ xs : PyList,
      _extract_rows (PyVal.dict (.cons "data" (PyVal.list xs) .nil)) =
        Except.ok xs.toList) ∧
    (∀ xs : PyList,
      _extract_rows (PyVal.dict (.cons "results" (PyVal.list xs) .nil)) =
        Except.ok xs.toList) ∧
    (∀ xs : PyList,
      _extract_rows (PyVal.dict (.cons "items" (PyVal.list xs) .nil)) =
        Except.ok xs.toList) := by
  refine ⟨fun xs => ?_, fun xs => rfl, fun xs => rfl, fun xs => rfl, fun xs => rfl⟩
  cases xs <;> rfl

/-- Claim C7, the claim as frozen is false on this code: a successful HTTP
call whose body is not JSON is wrapped as the dict value of key `raw`, and an
unrecognized dict shape is returned as ONE record (the response object
itself), not as zero records. -/
theorem C7_counterexample_raw_record :
    _post_once ⟨200, Option.none, "plain text"⟩ = Except.ok (rawWrap "plain text") ∧
    _extract_rows (rawWrap "plain text") = Except.ok [rawWrap "plain text"] ∧
    ([rawWrap "plain text"] : List PyVal).length = 1 := by
  exact ⟨rfl, rfl, rfl⟩

/-- Claim C7 (amended): a successful HTTP call whose body is not JSON is
non-fatal, but it contributes exactly one record, not zero: the body is
wrapped as a dict under the key `raw` and the reader's dict fallback returns
that wrapper as a single record. -/
theorem C7_amended_raw_one_record :
    ∀ t : String,
      _post_once ⟨200, Option.none, t⟩ = Except.ok (rawWrap t) ∧
      _extract_rows (rawWrap t) = Except.ok [rawWrap t] := by
  intro t
  exact ⟨rfl, rfl⟩

/-- Infix facts about `q_form4_tail` transfer to the whole query, for every
lookback value. -/
theorem infix_q_form4_of_tail {pat : List Char} (hours : Nat)
    (h : pat <:+: q_form4_tail.data) : pat <:+: (q_form4_buys hours).data := by
  have hsplit : (q_form4_buys hours).data =
      ("formType:\"4\" AND filedAt:[now-" ++ toString hours).data ++
        q_form4_tail.data := by
    simp [q_form4_buys, String.data_append]
  rw [hsplit]
  exact h.trans (List.suffix_append _ _).isInfix

/-- Claim C5, the claim as frozen is false on this code: the Form-4 selection
never requests transaction code `A`.  At the default 72-hour lookback the
built query contains no `transactionCode:"A"` clause while it does contain
`transactionCode:"P"`, so a filing whose only transaction code is `A` is not
selected and the selection cannot be `transactionCodes ∩ set-of A P ≠ ∅`. -/
theorem C5_counterexample_no_code_A :
    ¬ ("transactionCode:\"A\"".data <:+: (q_form4_buys 72).data) ∧
    ("transactionCode:\"P\"".data <:+: (q_form4_buys 72).data) := by
  constructor
  · decide
  · decide

/-- Claim C5 (amended): a Form-4 filing is selected as bullish exactly via
transaction code `P` (open-market purchase): for every lookback value the
built query carries a `transactionCode:"P"` clause in each of the four field
locations, and it carries no `transactionCode:"A"` clause (shown at the
default 72-hour lookback). -/
theorem C5_amended_only_P :
    (∀ hours : Nat,
      ("transactionCode:\"P\"".data <:+: (q_form4_buys hours).data) ∧
      ("data.insiderTransactions.transactionCode:\"P\"".data <:+: (q_form4_buys hours).data) ∧
      ("nonDerivativeTable.transactionCode:\"P\"".data <:+: (q_form4_buys hours).data) ∧
      ("derivativeTable.transactionCode:\"P\"".data <:+: (q_form4_buys hours).data)) ∧
    ¬ ("transactionCode:\"A\"".data <:+: (q_form4_buys 72).data) := by
  refine ⟨fun hours => ⟨?_, ?_, ?_, ?_⟩, ?_⟩
  · exact infix_q_form4_of_tail hours (by decide)
  · exact infix_q_form4_of_tail hours (by decide)
  · exact infix_q_form4_of_tail hours (by decide)
  · exact infix_q_form4_of_tail hours (by decide)
  · decide

/-- Append two dicts back to back (Python's `p[key] = v` appends a fresh key
in insertion order). -/
def PyDict.append : PyDict → PyDict → PyDict
  | .nil, d => d
  | .cons k v t, d => .cons k v (t.append d)

/-- Request payload builder (`_payload_base`): the filter string under both
`q` and `query`, the offset, the page size, the fixed sort, and the
continuation token appended only when truthy. -/
def _payload_base (query : String) (size frm : Nat) (next_token : PyVal) : PyVal :=
  let base : PyDict :=
    .cons "q" (.str query) (.cons "query" (.str query) (.cons "from" (.int frm)
      (.cons "size" (.int size) (.cons "sort"
        (.list (.cons (.dict (.cons "filedAt" (.str "desc") .nil)) .nil)) .nil))))
  if next_token.truthy then
    PyVal.dict (base.append (.cons "nextPageToken" next_token .nil))
  else PyVal.dict base

/-- Python's `isinstance(total, int) and frm + size < total` (a Python `bool`
is an `int`, `True` counting as 1 and `False` as 0). -/
def intLtTotal (x : Nat) (total : PyVal) : Bool :=
  match total with
  | .int n => (x : Int) < n
  | .bool b => (x : Int) < (if b then 1 else 0)
  | _ => false

/-- Next-page pointer extraction (`_page_extract_next`, lines 280-294): a
truthy `nextPageToken`/`next` wins and keeps the offset; otherwise the offset
advances by `size` and the `total` heuristic decides whether more pages exist.
Note the source's operator precedence: `total` is `None` whenever
`resp.get("hits")` is not a dict, even if a top-level `total` exists.  On a
non-dict response the attribute access raises (`AttributeError`). -/
def _page_extract_next (resp : PyVal) (frm size : Nat) : Py (PyVal × Nat × Bool) :=
  match pyGet resp "nextPageToken", pyGet resp "next",
      pyGet resp "total", pyGet resp "hits" with
  | .ok t1, .ok t2, .ok tot1, .ok hits =>
      let token := if t1.truthy then t1 else if t2.truthy then t2 else PyVal.none
      let total :=
        match hits with
        | .dict hk => if tot1.truthy then tot1 else (hk.find "total").getD PyVal.none
        | _ => PyVal.none
      if token.truthy then Except.ok (token, frm, false)
      else Except.ok (PyVal.none, frm + size, intLtTotal (frm + size) total)
  | .error e, _, _, _ => Except.error e
  | _, .error e, _, _ => Except.error e
  | _, _, .error e, _ => Except.error e
  | _, _, _, .error e => Except.error e

/-- Hashability of a Python value: lists and dicts are unhashable, so a dedup
key containing one cannot enter the `seen` set. -/
def isHashable : PyVal → Bool
  | .list _ => false
  | .dict _ => false
  | _ => true

/-- Composite dedup key of one record, `(r.get("accessionNo"),
r.get("filedAt"), r.get("link"))`, as hashed into the page loop's `seen` set;
a non-dict record raises `AttributeError`, an unhashable component raises
`TypeError`. -/
def dedupKey (r : PyVal) : Py (PyVal × PyVal × PyVal) :=
  match pyGet r "accessionNo", pyGet r "filedAt", pyGet r "link" with
  | .ok a, .ok f, .ok l =>
      if isHashable a && isHashable f && isHashable l then Except.ok (a, f, l)
      else Except.error "TypeError: unhashable type"
  | .error e, _, _ => Except.error e
  | _, .error e, _ => Except.error e
  | _, _, .error e => Except.error e

/-- Dedup keys of a record list, Python's set comprehension
`{(r.get("accessionNo"), r.get("filedAt"), r.get("link")) for r in collected}`
(kept as a list; only membership matters). -/
def keysOf : List PyVal → Py (List (PyVal × PyVal × PyVal))
  | [] => Except.ok []
  | r :: rs =>
      match dedupKey r, keysOf rs with
      | .ok k, .ok ks => Except.ok (k :: ks)
      | .error e, _ => Except.error e
      | _, .error e => Except.error e

/-- Inner append loop of a page: each row is appended unless its key is in
`seen`.  `seen` is the set computed BEFORE the loop and is not updated inside
it, exactly as in the source (lines 317-321). -/
def addRowsGo (seen : List (PyVal × PyVal × PyVal)) :
    List PyVal → List PyVal → Py (List PyVal)
  | collected, [] => Except.ok collected
  | collected, r :: rs =>
      match dedupKey r with
      | .error e => Except.error e
      | .ok k =>
          if seen.contains k then addRowsGo seen collected rs
          else addRowsGo seen (collected ++ [r]) rs

/-- One page's dedup-and-append step of `run_query_to_files`. -/
def addRows (collected rows : List PyVal) : Py (List PyVal) :=
  match keysOf collected with
  | .error e => Except.error e
  | .ok seen => addRowsGo seen collected rows

/-- Pagination loop of `run_query_to_files` (lines 308-334), with the page
counter modelled as remaining fuel (`fuel = PAGE_LIMIT - page`).  Each
iteration issues exactly one request; the pair's second component counts the
requests issued.  A raised exception anywhere in the body aborts the loop with
that error.  The loop is structurally recursive on the remaining page budget,
so it terminates on every provider behaviour. -/
def runQueryLoop (post : PyVal → Py PyVal) (query : String) (maxItems size : Nat) :
    Nat → Nat → PyVal → List PyVal → Py (List PyVal) × Nat
  | 0, _, _, collected => (Except.ok collected, 0)
  | fuel + 1, frm, tok, collected =>
    if collected.length < maxItems then
      match post (_payload_base query size frm tok) with
      | .error e => (Except.error e, 1)
      | .ok resp =>
        match _extract_rows resp with
        | .error e => (Except.error e, 1)
        | .ok rows =>
          if rows.isEmpty then (Except.ok collected, 1)
          else
            match addRows collected rows with
            | .error e => (Except.error e, 1)
            | .ok collected' =>
              match _page_extract_next resp frm size with
              | .error e => (Except.error e, 1)
              | .ok (tok', frm', more) =>
                if tok'.truthy then
                  ((runQueryLoop post query maxItems size fuel frm tok' collected').1,
                    (runQueryLoop post query maxItems size fuel frm tok' collected').2 + 1)
                else if more then
                  ((runQueryLoop post query maxItems size fuel frm' PyVal.none collected').1,
                    (runQueryLoop post query maxItems size fuel frm' PyVal.none collected').2 + 1)
                else (Except.ok collected', 1)
    else (Except.ok collected, 0)

/-- Page size heuristic of `run_query_to_files` (line 306):
`min(100, max(20, max_items // max(PAGE_LIMIT, 1)))`. -/
def pageSize (maxItems pageLimit : Nat) : Nat :=
  min 100 (max 20 (maxItems / max pageLimit 1))

/-- The query runner (`run_query_to_files`, lines 297-342), instrumented with
its file-system effect: the result is the returned count, the list of files
written, and the collected records.  Nothing is written when the collected
list is empty. -/
def run_query_to_files (post : PyVal → Py PyVal) (name query : String)
    (maxItems pageLimit : Nat) : Py (Nat × List String × List PyVal) :=
  match (runQueryLoop post query maxItems (pageSize maxItems pageLimit)
      pageLimit 0 PyVal.none []).1 with
  | .error e => Except.error e
  | .ok collected =>
      if collected.isEmpty then Except.ok (0, [], [])
      else
        Except.ok (collected.length,
          ["data/" ++ name ++ ".json", "data/" ++ name ++ ".csv"], collected)

/-- Number of POST requests one invocation of `run_query_to_files` issues. -/
def run_query_requests (post : PyVal → Py PyVal) (query : String)
    (maxItems pageLimit : Nat) : Nat :=
  (runQueryLoop post query maxItems (pageSize maxItems pageLimit)
    pageLimit 0 PyVal.none []).2

/-- The loop issues at most `fuel` requests, whatever the provider replies. -/
theorem runQueryLoop_requests_le (post : PyVal → Py PyVal) (query : String)
    (maxItems size : Nat) :
    ∀ (fuel frm : Nat) (tok : PyVal) (collected : List PyVal),
      (runQueryLoop post query maxItems size fuel frm tok collected).2 ≤ fuel := by
  intro fuel
  induction fuel with
  | zero => intro frm tok collected; simp [runQueryLoop]
  | succ n ih =>
      intro frm tok collected
      simp only [runQueryLoop]
      split
      · split
        · simp
        · split
          · simp
          · split
            · simp
            · split
              · simp
              · split
                · simp
                · split
                  · exact Nat.succ_le_succ (ih _ _ _)
                  · split
                    · exact Nat.succ_le_succ (ih _ _ _)
                    · simp
      · simp

/-- Claim C3: for every provider response sequence, including one that always
signals a further page, the pagination engine issues at most `PAGE_LIMIT`
requests.  Termination holds for every provider behaviour because the loop is
structurally recursive on the remaining page budget. -/
theorem C3_page_limit (post : PyVal → Py PyVal) (query : String)
    (maxItems pageLimit : Nat) :
    run_query_requests post query maxItems pageLimit ≤ pageLimit :=
  runQueryLoop_requests_le post query maxItems (pageSize maxItems pageLimit)
    pageLimit 0 PyVal.none []

/-- Appending a page never adds more rows than the page holds. -/
theorem addRowsGo_length_le (seen : List (PyVal × PyVal × PyVal)) :
    ∀ (rows collected out : List PyVal),
      addRowsGo seen collected rows = Except.ok out →
      out.length ≤ collected.length + rows.length := by
  intro rows
  induction rows with
  | nil =>
      intro collected out h
      simp only [addRowsGo] at h
      cases h
      simp
  | cons r rs ih =>
      intro collected out h
      simp only [addRowsGo] at h
      split at h
      · cases h
      · split at h
        · have := ih collected out h
          simp only [List.length_cons]
          omega
        · have := ih (collected ++ [r]) out h
          simp only [List.length_append, List.length_cons, List.length_nil] at this
          simp only [List.length_cons]
          omega

/-- The dedup-and-append step never adds more rows than the page holds. -/
theorem addRows_length_le (collected rows out : List PyVal)
    (h : addRows collected rows = Except.ok out) :
    out.length ≤ collected.length + rows.length := by
  simp only [addRows] at h
  split at h
  · cases h
  · exact addRowsGo_length_le _ rows collected out h

/-- Length invariant of the pagination loop: when every page the provider can
produce holds at most `B` rows, a collection within the bound stays within the
bound `maxItems - 1 + B`. -/
theorem runQueryLoop_length_le (post : PyVal → Py PyVal) (query : String)
    (maxItems size B : Nat)
    (Hpost : ∀ p resp rows, post p = Except.ok resp →
      _extract_rows resp = Except.ok rows → rows.length ≤ B) :
    ∀ (fuel frm : Nat) (tok : PyVal) (collected out : List PyVal),
      collected.length ≤ maxItems - 1 + B →
      (runQueryLoop post query maxItems size fuel frm tok collected).1 = Except.ok out →
      out.length ≤ maxItems - 1 + B := by
  intro fuel
  induction fuel with
  | zero =>
      intro frm tok collected out hlen h
      simp only [runQueryLoop] at h
      cases h
      exact hlen
  | succ n ih =>
      intro frm tok collected out hlen h
      simp only [runQueryLoop] at h
      split at h
      case isTrue hlt =>
        split at h
        case h_1 => cases h
        case h_2 resp heq =>
          split at h
          case h_1 => cases h
          case h_2 rows heq2 =>
            split at h
            case isTrue => cases h; exact hlen
            case isFalse =>
              split at h
              case h_1 => cases h
              case h_2 collected' heq3 =>
                split at h
                case h_1 => cases h
                case h_2 tok' frm' more heq4 =>
                  have hrows : rows.length ≤ B := Hpost _ _ _ heq heq2
                  have hcol : collected'.length ≤ collected.length + rows.length :=
                    addRows_length_le collected rows collected' heq3
                  have hb : collected'.length ≤ maxItems - 1 + B := by omega
                  split at h
                  · exact ih _ _ _ _ hb h
                  · split at h
                    · exact ih _ _ _ _ hb h
                    · cases h; exact hb
      case isFalse =>
        cases h
        exact hlen

/-- Claim C2 (amended): for every provider whose pages each hold at most `B`
rows, the collected output of `run_query_to_files` has length at most
`maxItems - 1 + B`: the loop stops requesting once `maxItems` records are
collected, but the page that crosses the threshold is appended untruncated, so
the output may exceed `maxItems` itself. -/
theorem C2_amended_bound (post : PyVal → Py PyVal) (name query : String)
    (maxItems pageLimit B : Nat)
    (Hpost : ∀ p resp rows, post p = Except.ok resp →
      _extract_rows resp = Except.ok rows → rows.length ≤ B) :
    ∀ (cnt : Nat) (files : List String) (collected : List PyVal),
      run_query_to_files post name query maxItems pageLimit =
        Except.ok (cnt, files, collected) →
      collected.length ≤ maxItems - 1 + B := by
  intro cnt files collected h
  simp only [run_query_to_files] at h
  split at h
  · cases h
  case h_2 c heq =>
    have hc : c.length ≤ maxItems - 1 + B :=
      runQueryLoop_length_le post query maxItems (pageSize maxItems pageLimit) B
        Hpost pageLimit 0 PyVal.none [] c (by simp) heq
    split at h
    · cases h; simp
    · cases h; exact hc

/-- First of two distinct sample records a permissive provider returns. -/
def cRow1 : PyVal := PyVal.dict (.cons "accessionNo" (.str "acc-1") .nil)

/-- Second of two distinct sample records a permissive provider returns. -/
def cRow2 : PyVal := PyVal.dict (.cons "accessionNo" (.str "acc-2") .nil)

/-- A provider that always answers with one `filings` page of two records. -/
def cPost2 : PyVal → Py PyVal := fun _ =>
  Except.ok (PyVal.dict
    (.cons "filings" (.list (.cons cRow1 (.cons cRow2 .nil))) .nil))

/-- Claim C2, the claim as frozen is false on this code: with
`maxItems = 1` a single page of two fresh records is appended wholesale, so
the collected output has two records, exceeding `maxItems`.  The code checks
`len(collected) < max_items` only before requesting a page and never truncates
what a page adds. -/
theorem C2_counterexample_overshoot :
    run_query_to_files cPost2 "Form4_buys" "q" 1 5 =
      Except.ok (2, ["data/Form4_buys.json", "data/Form4_buys.csv"],
        [cRow1, cRow2]) ∧
    ¬ ((2 : Nat) ≤ 1) := by
  exact ⟨rfl, by decide⟩

/-- Witness for `C2_amended_bound` at the concrete provider `cPost2` with
`maxItems = 1` and page bound `B = 2`. -/
theorem C2_amended_bound_witness :
    ([cRow1, cRow2] : List PyVal).length ≤ 1 - 1 + 2 :=
  C2_amended_bound cPost2 "Form4_buys" "q" 1 5 2
    (by
      intro p resp rows hp hr
      simp only [cPost2, Except.ok.injEq] at hp
      subst hp
      have hrows : _extract_rows (PyVal.dict
          (.cons "filings" (.list (.cons cRow1 (.cons cRow2 .nil))) .nil)) =
          Except.ok [cRow1, cRow2] := rfl
      rw [hrows] at hr
      injection hr with h2
      rw [← h2]
      decide)
    2 ["data/Form4_buys.json", "data/Form4_buys.csv"] [cRow1, cRow2] rfl

/-- The rows of one page whose key is not in `seen`, in page order and keeping
page-internal duplicates; this is what the fixed-`seen` append loop adds. -/
def selectNew (seen : List (PyVal × PyVal × PyVal)) : List PyVal → Py (List PyVal)
  | [] => Except.ok []
  | r :: rs =>
      match dedupKey r, selectNew seen rs with
      | .ok k, .ok rest => Except.ok (if seen.contains k then rest else r :: rest)
      | .error e, _ => Except.error e
      | _, .error e => Except.error e

/-- The append loop adds exactly the rows selected against the fixed `seen`
set: page-internal duplicates are NOT filtered against each other. -/
theorem addRowsGo_eq_selectNew (seen : List (PyVal × PyVal × PyVal)) :
    ∀ (rows collected : List PyVal),
      addRowsGo seen collected rows =
        match selectNew seen rows with
        | .error e => Except.error e
        | .ok sel => Except.ok (collected ++ sel) := by
  intro rows
  induction rows with
  | nil => intro collected; simp [addRowsGo, selectNew]
  | cons r rs ih =>
      intro collected
      simp only [addRowsGo, selectNew]
      cases hk : dedupKey r with
      | error e => simp
      | ok k =>
          by_cases hc : seen.contains k
          · simp only [if_pos hc]
            rw [ih collected]
            have hc' : k ∈ seen := by simpa using hc
            cases hs : selectNew seen rs <;> simp [hc']
          · simp only [if_neg hc]
            rw [ih (collected ++ [r])]
            have hc' : k ∉ seen := by simpa using hc
            cases hs : selectNew seen rs <;> simp [hc']

/-- Keys of the selected rows: selection succeeds exactly when the page's keys
do, and the selected keys are the page's keys filtered against `seen`. -/
theorem selectNew_keys (seen : List (PyVal × PyVal × PyVal)) :
    ∀ (rows sel : List PyVal), selectNew seen rows = Except.ok sel →
      ∃ rks, keysOf rows = Except.ok rks ∧
        keysOf sel = Except.ok (rks.filter (fun k => !seen.contains k)) := by
  intro rows
  induction rows with
  | nil =>
      intro sel h
      simp only [selectNew] at h
      cases h
      exact ⟨[], rfl, rfl⟩
  | cons r rs ih =>
      intro sel h
      simp only [selectNew] at h
      cases hk : dedupKey r with
      | error e => rw [hk] at h; cases hs : selectNew seen rs <;> rw [hs] at h <;> cases h
      | ok k =>
          rw [hk] at h
          cases hs : selectNew seen rs with
          | error e => rw [hs] at h; cases h
          | ok rest =>
              rw [hs] at h
              dsimp only at h
              obtain ⟨rks, hrks, hselk⟩ := ih rest hs
              by_cases hc : seen.contains k
              · rw [if_pos hc] at h
                cases h
                refine ⟨k :: rks, ?_, ?_⟩
                · simp only [keysOf, hk, hrks]
                · rw [hselk]
                  have hm : k ∈ seen := by simpa using hc
                  simp [List.filter_cons, hm]
              · rw [if_neg hc] at h
                cases h
                refine ⟨k :: rks, ?_, ?_⟩
                · simp only [keysOf, hk, hrks]
                · have hm : k ∉ seen := by simpa using hc
                  simp [keysOf, hk, hselk, List.filter_cons, hm]

/-- Keys distribute over appending record lists. -/
theorem keysOf_append :
    ∀ (a b : List PyVal) (ka kb : List (PyVal × PyVal × PyVal)),
      keysOf a = Except.ok ka → keysOf b = Except.ok kb →
      keysOf (a ++ b) = Except.ok (ka ++ kb) := by
  intro a
  induction a with
  | nil =>
      intro b ka kb ha hb
      simp only [keysOf] at ha
      cases ha
      simpa using hb
  | cons r rs ih =>
      intro b ka kb ha hb
      simp only [keysOf] at ha
      cases hk : dedupKey r with
      | error e =>
          rw [hk] at ha
          cases hks : keysOf rs <;> rw [hks] at ha <;> cases ha
      | ok k =>
          rw [hk] at ha
          cases hks : keysOf rs with
          | error e => rw [hks] at ha; cases ha
          | ok ks =>
              rw [hks] at ha
              dsimp only at ha
              cases ha
              rw [List.cons_append]
              simp only [keysOf, hk, ih b ks kb hks hb]
              rfl

/-- Structure of a successful dedup-and-append step: the result is the old
collection followed by the page's rows selected against the old keys. -/
theorem addRows_ok_structure (collected rows collected' : List PyVal)
    (ck : List (PyVal × PyVal × PyVal))
    (hck : keysOf collected = Except.ok ck)
    (h : addRows collected rows = Except.ok collected') :
    ∃ sel, selectNew ck rows = Except.ok sel ∧ collected' = collected ++ sel := by
  simp only [addRows, hck] at h
  rw [addRowsGo_eq_selectNew] at h
  cases hs : selectNew ck rows with
  | error e => rw [hs] at h; cases h
  | ok sel => rw [hs] at h; dsimp only at h; cases h; exact ⟨sel, rfl, rfl⟩

/-- Nodup invariant of the pagination loop: when each page the provider can
produce has pairwise-distinct keys, the collected output has pairwise-distinct
keys as well (the cross-page `seen` filter preserves it). -/
theorem runQueryLoop_nodup (post : PyVal → Py PyVal) (query : String)
    (maxItems size : Nat)
    (Hpost : ∀ p resp rows rks, post p = Except.ok resp →
      _extract_rows resp = Except.ok rows → keysOf rows = Except.ok rks → rks.Nodup) :
    ∀ (fuel frm : Nat) (tok : PyVal) (collected : List PyVal)
      (ck : List (PyVal × PyVal × PyVal)) (out : List PyVal),
      keysOf collected = Except.ok ck → ck.Nodup →
      (runQueryLoop post query maxItems size fuel frm tok collected).1 = Except.ok out →
      ∃ ks, keysOf out = Except.ok ks ∧ ks.Nodup := by
  intro fuel
  induction fuel with
  | zero =>
      intro frm tok collected ck out hck hnd h
      simp only [runQueryLoop] at h
      cases h
      exact ⟨ck, hck, hnd⟩
  | succ n ih =>
      intro frm tok collected ck out hck hnd h
      simp only [runQueryLoop] at h
      split at h
      case isTrue hlt =>
        split at h
        case h_1 => cases h
        case h_2 resp heq =>
          split at h
          case h_1 => cases h
          case h_2 rows heq2 =>
            split at h
            case isTrue => cases h; exact ⟨ck, hck, hnd⟩
            case isFalse =>
              split at h
              case h_1 => cases h
              case h_2 collected' heq3 =>
                split at h
                case h_1 => cases h
                case h_2 tok' frm' more heq4 =>
                  obtain ⟨sel, hsel, heqc⟩ :=
                    addRows_ok_structure collected rows collected' ck hck heq3
                  obtain ⟨rks, hrks, hselk⟩ := selectNew_keys ck rows sel hsel
                  have hrnd : rks.Nodup := Hpost _ _ _ _ heq heq2 hrks
                  have hck' : keysOf collected' =
                      Except.ok (ck ++ rks.filter (fun k => !ck.contains k)) := by
                    subst heqc
                    exact keysOf_append collected sel ck _ hck hselk
                  have hnd' : (ck ++ rks.filter (fun k => !ck.contains k)).Nodup := by
                    refine List.Nodup.append hnd (hrnd.filter _) ?_
                    intro x hx hxf
                    have hxn := List.of_mem_filter hxf
                    simp at hxn
                    exact hxn hx
                  split at h
                  · exact ih _ _ _ _ _ hck' hnd' h
                  · split at h
                    · exact ih _ _ _ _ _ hck' hnd' h
                    · cases h; exact ⟨_, hck', hnd'⟩
      case isFalse =>
        cases h
        exact ⟨ck, hck, hnd⟩

/-- Claim C4 (amended): deduplication by the composite key
(accession identifier, filedAt, link) protects against overlap BETWEEN pages:
whenever every individual page has pairwise-distinct keys, the collected
output of `run_query_to_files` has pairwise-distinct keys.  Duplicates inside
one page are not removed (see the counterexample): the `seen` set is computed
once per page, before the append loop, and is not updated inside it. -/
theorem C4_amended_cross_page_nodup (post : PyVal → Py PyVal) (name query : String)
    (maxItems pageLimit : Nat)
    (Hpost : ∀ p resp rows rks, post p = Except.ok resp →
      _extract_rows resp = Except.ok rows → keysOf rows = Except.ok rks → rks.Nodup) :
    ∀ (cnt : Nat) (files : List String) (collected : List PyVal),
      run_query_to_files post name query maxItems pageLimit =
        Except.ok (cnt, files, collected) →
      ∃ ks, keysOf collected = Except.ok ks ∧ ks.Nodup := by
  intro cnt files collected h
  simp only [run_query_to_files] at h
  split at h
  · cases h
  case h_2 c heq =>
    have hc := runQueryLoop_nodup post query maxItems (pageSize maxItems pageLimit)
      Hpost pageLimit 0 PyVal.none [] [] c rfl List.nodup_nil heq
    split at h
    · cases h; exact ⟨[], rfl, List.nodup_nil⟩
    · cases h; exact hc

/-- A record that a buggy-or-overlapping provider repeats twice in one page. -/
def cRowDup : PyVal := PyVal.dict (.cons "accessionNo" (.str "acc-dup") .nil)

/-- A provider that answers with one page holding the same record twice. -/
def cPost4 : PyVal → Py PyVal := fun _ =>
  Except.ok (PyVal.dict
    (.cons "filings" (.list (.cons cRowDup (.cons cRowDup .nil))) .nil))

/-- Claim C4, the claim as frozen is false on this code: two duplicate records
arriving in the same page BOTH enter the collected output, because the `seen`
set is built from the previously collected records only and is not updated
while a page is appended.  The collected output below contains the same record
twice, so two records share the composite key. -/
theorem C4_counterexample_same_page_dup :
    run_query_to_files cPost4 "Form4_buys" "q" 10 5 =
      Except.ok (2, ["data/Form4_buys.json", "data/Form4_buys.csv"],
        [cRowDup, cRowDup]) ∧
    keysOf [cRowDup, cRowDup] =
      Except.ok [(PyVal.str "acc-dup", PyVal.none, PyVal.none),
        (PyVal.str "acc-dup", PyVal.none, PyVal.none)] ∧
    ¬ ([(PyVal.str "acc-dup", PyVal.none, PyVal.none),
        (PyVal.str "acc-dup", PyVal.none, PyVal.none)] :
          List (PyVal × PyVal × PyVal)).Nodup := by
  refine ⟨rfl, rfl, by decide⟩

/-- Witness for `C4_amended_cross_page_nodup` at the concrete provider
`cPost2`, whose single page has two distinct keys. -/
theorem C4_amended_cross_page_nodup_witness :
    ∃ ks, keysOf [cRow1, cRow2] = Except.ok ks ∧ ks.Nodup :=
  C4_amended_cross_page_nodup cPost2 "Form4_buys" "q" 10 5
    (by
      intro p resp rows rks hp hr hk
      simp only [cPost2, Except.ok.injEq] at hp
      subst hp
      have hrows : _extract_rows (PyVal.dict
          (.cons "filings" (.list (.cons cRow1 (.cons cRow2 .nil))) .nil)) =
          Except.ok [cRow1, cRow2] := rfl
      rw [hrows] at hr
      injection hr with h2
      rw [← h2] at hk
      have hkk : keysOf [cRow1, cRow2] = Except.ok
          [(PyVal.str "acc-1", PyVal.none, PyVal.none),
            (PyVal.str "acc-2", PyVal.none, PyVal.none)] := rfl
      rw [hkk] at hk
      injection hk with h3
      rw [← h3]
      decide)
    2 ["data/Form4_buys.json", "data/Form4_buys.csv"] [cRow1, cRow2] rfl

/-- Python `str()` of the values that reach the RSS f-string; container
values are abbreviated (their exact rendering matters to no claim). -/
def pyStr : PyVal → String
  | .none => "None"
  | .bool b => if b then "True" else "False"
  | .int n => toString n
  | .str s => s
  | .list _ => "<list>"
  | .dict _ => "<dict>"

/-- Helper `_safe_get(d, k)` (lines 177-181): `d.get(k, "")` with a present
`None` also mapped to the default `""`; a non-dict receiver raises. -/
def _safe_get (r : PyVal) (k : String) : Py PyVal :=
  match r with
  | .dict kvs =>
      match kvs.find k with
      | some v => Except.ok (if v = PyVal.none then PyVal.str "" else v)
      | Option.none => Except.ok (PyVal.str "")
  | _ => Except.error "AttributeError: object has no attribute get"

/-- Python's truthiness-based `a or b` on values. -/
def pyOr (a b : PyVal) : PyVal := if a.truthy then a else b

/-- One RSS feed entry as `main` builds it (lines 374-379). -/
structure RssItem where
  title : String
  link : PyVal
  pubDate : PyVal
  description : PyVal
  deriving DecidableEq

/-- One RSS item from one exported row (`main`, lines 374-379): field
fallbacks via `_safe_get` and `or`-chains, the `pubDate` defaulting to the
run's start time. -/
def mkRssItem (start name : String) (r : PyVal) : Py RssItem :=
  match _safe_get r "ticker", _safe_get r "formType", _safe_get r "link",
      _safe_get r "url", _safe_get r "filedAt", _safe_get r "filingDate",
      _safe_get r "companyName" with
  | .ok ticker, .ok formType, .ok l1, .ok l2, .ok p1, .ok p2, .ok d1 =>
      Except.ok
        { title := pyStr ticker ++ " " ++ pyStr formType ++ " – " ++ name,
          link := pyOr l1 (pyOr l2 (PyVal.str "")),
          pubDate := pyOr p1 (pyOr p2 (PyVal.str start)),
          description := pyOr d1 (PyVal.str "") }
  | _, _, _, _, _, _, _ =>
      Except.error "AttributeError: object has no attribute get"

/-- The `for r in rows[:30]` RSS loop of `main`: items are appended one by
one; an exception mid-loop keeps the items already appended and aborts the
loop (the enclosing try/except then swallows it). -/
def buildRssAppend (start name : String) : List RssItem → List PyVal → List RssItem × Bool
  | acc, [] => (acc, true)
  | acc, r :: rs =>
      match mkRssItem start name r with
      | .error _ => (acc, false)
      | .ok it => buildRssAppend start name (acc ++ [it]) rs

/-- Accumulator of `main`'s task loop: running total, RSS items so far, files
written so far. -/
structure MainAcc where
  totalItems : Nat
  rssItems : List RssItem
  filesWritten : List String
  deriving DecidableEq

/-- One iteration of `main`'s task loop (lines 364-381).  The whole category
body runs inside try/except: an exception leaves the visible state as it was
at the point of the raise and the loop continues with the next category; a
failure inside `run_query_to_files` therefore leaves the accumulator
untouched. -/
def taskStep (post : PyVal → Py PyVal) (maxItems pageLimit : Nat) (start : String)
    (acc : MainAcc) (task : String × String) : MainAcc :=
  match run_query_to_files post task.1 task.2 maxItems pageLimit with
  | .error _ => acc
  | .ok (cnt, files, collected) =>
      { totalItems := acc.totalItems + cnt,
        filesWritten := acc.filesWritten ++ files,
        rssItems :=
          if cnt > 0 then
            (buildRssAppend start task.1 acc.rssItems (collected.take 30)).1
          else acc.rssItems }

/-- The five categories `main` runs, in order (lines 353-359). -/
def tasks (hours : Nat) : List (String × String) :=
  [("8K_bullish", q_8k_bullish hours),
   ("8K_material_agreements", q_8k_material_agreements hours),
   ("Form4_buys", q_form4_buys hours),
   ("10Q_bullish", q_10q_bullish hours),
   ("13D_13G", q_13d_13g hours)]

/-- Observable outcome of one whole batch run. -/
structure RunResult where
  totalItems : Nat
  rssItems : List RssItem
  filesWritten : List String
  rssWritten : Bool
  deriving DecidableEq

/-- Initial accumulator of `main`'s loop. -/
def mainInit : MainAcc := { totalItems := 0, rssItems := [], filesWritten := [] }

/-- The task loop of `main` over an arbitrary task list, followed by the RSS
decision (lines 361-389): the feed file is written only when at least one RSS
item accumulated. -/
def mainRunOn (post : PyVal → Py PyVal) (maxItems pageLimit : Nat) (start : String)
    (ts : List (String × String)) : RunResult :=
  { totalItems := (ts.foldl (taskStep post maxItems pageLimit start) mainInit).totalItems,
    rssItems := (ts.foldl (taskStep post maxItems pageLimit start) mainInit).rssItems,
    filesWritten :=
      (ts.foldl (taskStep post maxItems pageLimit start) mainInit).filesWritten ++
        (if (ts.foldl (taskStep post maxItems pageLimit start) mainInit).rssItems.isEmpty
          then [] else ["public/sec-bullish.xml"]),
    rssWritten :=
      !(ts.foldl (taskStep post maxItems pageLimit start) mainInit).rssItems.isEmpty }

/-- The whole batch run (`main`, lines 349-392). -/
def mainRun (post : PyVal → Py PyVal) (lookbackHours maxItems pageLimit : Nat)
    (start : String) : RunResult :=
  mainRunOn post maxItems pageLimit start (tasks lookbackHours)

/-- What one category contributes to `total_items`: its returned count on
success, zero when it failed. -/
def categoryCount (post : PyVal → Py PyVal) (maxItems pageLimit : Nat)
    (task : String × String) : Nat :=
  match run_query_to_files post task.1 task.2 maxItems pageLimit with
  | .ok (cnt, _, _) => cnt
  | .error _ => 0

/-- A failing category leaves the accumulator untouched. -/
theorem taskStep_error (post : PyVal → Py PyVal) (maxItems pageLimit : Nat)
    (start : String) (acc : MainAcc) (t : String × String)
    (h : (run_query_to_files post t.1 t.2 maxItems pageLimit).isOk = false) :
    taskStep post maxItems pageLimit start acc t = acc := by
  cases hr : run_query_to_files post t.1 t.2 maxItems pageLimit with
  | error e => simp [taskStep, hr]
  | ok v => rw [hr] at h; simp [Except.isOk, Except.toBool] at h

/-- One task adds exactly its category count to the running total. -/
theorem taskStep_totalItems (post : PyVal → Py PyVal) (maxItems pageLimit : Nat)
    (start : String) (acc : MainAcc) (t : String × String) :
    (taskStep post maxItems pageLimit start acc t).totalItems =
      acc.totalItems + categoryCount post maxItems pageLimit t := by
  cases hr : run_query_to_files post t.1 t.2 maxItems pageLimit with
  | error e => simp [taskStep, categoryCount, hr]
  | ok v =>
      obtain ⟨cnt, files, collected⟩ := v
      simp [taskStep, categoryCount, hr]

/-- The task loop's total is the sum of the per-category counts. -/
theorem mainFold_total (post : PyVal → Py PyVal) (maxItems pageLimit : Nat)
    (start : String) :
    ∀ (ts : List (String × String)) (acc : MainAcc),
      (ts.foldl (taskStep post maxItems pageLimit start) acc).totalItems =
        acc.totalItems + (ts.map (categoryCount post maxItems pageLimit)).sum := by
  intro ts
  induction ts with
  | nil => intro acc; simp
  | cons t ts ih =>
      intro acc
      simp only [List.foldl_cons, List.map_cons, List.sum_cons]
      rw [ih, taskStep_totalItems]
      omega

/-- Claim C8: a transport failure in one category is fatal for that category
only.  First part: a run over a task list containing a failing category has
exactly the outcome of the run without that category (zero results for it,
all other categories processed, the run itself completing normally).  Second
part: the run's total is the sum of the per-category counts, failed
categories contributing zero — partial success is a valid terminal state. -/
theorem C8_partial_failure (post : PyVal → Py PyVal) (maxItems pageLimit : Nat)
    (start : String) :
    (∀ (ts1 ts2 : List (String × String)) (t : String × String),
      (run_query_to_files post t.1 t.2 maxItems pageLimit).isOk = false →
      mainRunOn post maxItems pageLimit start (ts1 ++ t :: ts2) =
        mainRunOn post maxItems pageLimit start (ts1 ++ ts2)) ∧
    (∀ ts : List (String × String),
      (mainRunOn post maxItems pageLimit start ts).totalItems =
        (ts.map (categoryCount post maxItems pageLimit)).sum) := by
  constructor
  · intro ts1 ts2 t h
    have hf : (ts1 ++ t :: ts2).foldl (taskStep post maxItems pageLimit start) mainInit =
        (ts1 ++ ts2).foldl (taskStep post maxItems pageLimit start) mainInit := by
      rw [List.foldl_append, List.foldl_append, List.foldl_cons,
        taskStep_error post maxItems pageLimit start _ t h]
    unfold mainRunOn
    rw [hf]
  · intro ts
    unfold mainRunOn
    rw [mainFold_total]
    simp [mainInit]

/-- A provider whose every request raises a network error. -/
def cPostFail : PyVal → Py PyVal := fun _ => Except.error "network unreachable"

/-- Witness for `C8_partial_failure` at the concrete always-failing provider:
dropping the failing middle category does not change the run, and the total
of a one-category run equals that category's count. -/
theorem C8_partial_failure_witness :
    mainRunOn cPostFail 1 1 "start"
        ([("8K_bullish", "q1")] ++ ("Form4_buys", "q2") :: [("13D_13G", "q3")]) =
      mainRunOn cPostFail 1 1 "start" ([("8K_bullish", "q1")] ++ [("13D_13G", "q3")]) ∧
    (mainRunOn cPostFail 1 1 "start" [("8K_bullish", "q1")]).totalItems =
      ([("8K_bullish", "q1")].map (categoryCount cPostFail 1 1)).sum :=
  ⟨(C8_partial_failure cPostFail 1 1 "start").1
      [("8K_bullish", "q1")] [("13D_13G", "q3")] ("Form4_buys", "q2") rfl,
    (C8_partial_failure cPostFail 1 1 "start").2 [("8K_bullish", "q1")]⟩

/-- A provider that always answers with an empty (falsy) JSON object. -/
def cPostEmpty : PyVal → Py PyVal := fun _ => Except.ok (PyVal.dict .nil)

/-- Claim C10: a category whose pagination collects zero records writes no
JSON and no CSV file and returns 0, and the RSS file is written only when at
least one feed item accumulated across all categories. -/
theorem C10_no_write_when_empty :
    (∀ (post : PyVal → Py PyVal) (name query : String) (maxItems pageLimit : Nat),
      (runQueryLoop post query maxItems (pageSize maxItems pageLimit)
          pageLimit 0 PyVal.none []).1 = Except.ok [] →
      run_query_to_files post name query maxItems pageLimit = Except.ok (0, [], [])) ∧
    (∀ (post : PyVal → Py PyVal) (hours maxItems pageLimit : Nat) (start : String),
      (mainRun post hours maxItems pageLimit start).rssWritten = true →
      (mainRun post hours maxItems pageLimit start).rssItems ≠ []) := by
  constructor
  · intro post name query maxItems pageLimit h
    simp [run_query_to_files, h]
  · intro post hours maxItems pageLimit start h
    simp only [mainRun, mainRunOn] at h ⊢
    simpa using h

/-- Witness for `C10_no_write_when_empty`: an all-empty provider writes
nothing and returns 0, and a run that sets `rssWritten` has items. -/
theorem C10_no_write_when_empty_witness :
    run_query_to_files cPostEmpty "empty" "q" 1 1 = Except.ok (0, [], []) ∧
    (mainRun cPost2 72 10 5 "start").rssItems ≠ [] :=
  ⟨C10_no_write_when_empty.1 cPostEmpty "empty" "q" 1 1 rfl,
    C10_no_write_when_empty.2 cPost2 72 10 5 "start" rfl⟩

/-- Modelled from the spec: the script in src/ has no history ledger at all
(no ledger file is read or written anywhere in `fetch_sec_bullish_secapi.py`);
the FeedItem of spec section 4.5 carries a title and a link, from which its
stable id is derived. -/
structure FeedItem where
  title : String
  link : String
  deriving DecidableEq

/-- Modelled from the spec: the stable id of a feed item, a deterministic
function of (title, link) ("same logical filing always yields the same id"). -/
def itemId (it : FeedItem) : String := it.title ++ "|" ++ it.link

/-- Modelled from the spec: intra-batch dedup of section 4.5 step 1 — drop
items whose id repeats earlier in the same batch, first occurrence wins,
insertion order preserved. -/
def dedupBatch : List FeedItem → List String → List FeedItem
  | [], _ => []
  | it :: rest, seenIds =>
      if itemId it ∈ seenIds then dedupBatch rest seenIds
      else it :: dedupBatch rest (itemId it :: seenIds)

/-- Modelled from the spec: `dedupeAndFilter` of section 4.5 — after
intra-batch dedup, partition into the items whose id is not in the ledger
(`newItems`, first component) and return all unique items as well (second
component). -/
def dedupeAndFilter (items : List FeedItem) (ledger : List String) :
    List FeedItem × List FeedItem :=
  let batch := dedupBatch items []
  (batch.filter (fun it => !ledger.contains (itemId it)), batch)

/-- Modelled from the spec: the once-per-batch ledger append — `newItems`
ids are appended to the ledger in discovery order; nothing is removed. -/
def updateLedger (ledger : List String) (newItems : List FeedItem) : List String :=
  ledger ++ newItems.map itemId

/-- Claim C9 (spec-modelled, the ledger subsystem is absent from src/): an id
already present in the ledger never reappears among the run's `newItems`, and
the updated ledger extends the old one — the old ledger is a prefix of the
new, so the ledger is append-only and never shrinks. -/
theorem C9_ledger_no_reemit (items : List FeedItem) (ledger : List String) :
    (∀ x ∈ ledger, ∀ it ∈ (dedupeAndFilter items ledger).1, itemId it ≠ x) ∧
    (∃ tail, updateLedger ledger (dedupeAndFilter items ledger).1 = ledger ++ tail) := by
  constructor
  · intro x hx it hit heq
    have hmem := List.of_mem_filter hit
    simp at hmem
    exact hmem (heq ▸ hx)
  · exact ⟨_, rfl⟩

/-- Sample feed item already recorded in the ledger. -/
def cItemA : FeedItem := ⟨"ACME CORP 8-K", "http://example.com/a"⟩

/-- Sample feed item not yet in the ledger. -/
def cItemB : FeedItem := ⟨"BETA INC 4", "http://example.com/b"⟩

/-- Witness for `C9_ledger_no_reemit`: with `cItemA`'s id already in the
ledger, the new item `cItemB` (which does survive into `newItems`) has a
different id, and the updated ledger extends the old one. -/
theorem C9_ledger_no_reemit_witness :
    itemId cItemB ≠ itemId cItemA ∧
    (∃ tail, updateLedger [itemId cItemA]
      (dedupeAndFilter [cItemA, cItemB] [itemId cItemA]).1 =
        [itemId cItemA] ++ tail) :=
  ⟨(C9_ledger_no_reemit [cItemA, cItemB] [itemId cItemA]).1
      (itemId cItemA) (by simp) cItemB (by decide),
    (C9_ledger_no_reemit [cItemA, cItemB] [itemId cItemA]).2⟩
